import Mathlib

/-!
# Verification of the cytotoxicity-assay scheduling engine

Shallow embedding of the schedule-calculation, archiving and
notification-gate logic of the Allergy-Cytotoxic repository
(`utils/schedule_utils.py`, `config/settings.py`,
`allergy-cytotoxic/utils/data_archive.py`, `utils/scheduler.py`,
`app.py`), together with theorems checking the specification's claims
about it.

Calendar dates are modelled as integers (days since the Unix epoch,
1970-01-01 = day 0); Python `date` arithmetic (`date + timedelta(days=n)`,
`(d1 - d2).days`, `<`/`<=` comparisons) is exactly integer arithmetic on
this encoding.  The workday oracle (`chinese_calendar.is_workday`, an
external holiday table) is a parameter `W : Int → Bool`.  Python's
impure reads of the current day (`date.today()`, `datetime.now()`) are
modelled by passing the current instant explicitly.
-/

/-- Day number of a proleptic-Gregorian civil date, with 1970-01-01 = 0
(Howard Hinnant's `days_from_civil`); used only to name concrete dates
such as `2024-06-07` in theorems.  All intermediate divisions act on
non-negative values for the years used here. -/
def daysFromCivil (y m d : Int) : Int :=
  let y' := if m ≤ 2 then y - 1 else y
  let era := (if 0 ≤ y' then y' else y' - 399) / 400
  let yoe := y' - era * 400
  let doy := (153 * (if 2 < m then m - 3 else m + 9) + 2) / 5 + d - 1
  let doe := yoe * 365 + yoe / 4 - yoe / 100 + doy
  era * 146097 + doe - 719468

/-- One step template of a method definition, from `CYTOTOXIC_METHODS` in
`config/settings.py`.  A Python step dict without a `"flexible_days"` key
is modelled by `flexible_days = []`: the source only tests the key with
`step.get("flexible_days")`, which is falsy both for a missing key and
for an empty list. -/
structure StepTemplate where
  day : Nat
  action : String
  description : String
  adjustable : Bool := false
  flexible_days : List Nat := []
deriving Repr, DecidableEq

/-- One method definition from `CYTOTOXIC_METHODS` in `config/settings.py`. -/
structure MethodDef where
  name : String
  adjustable : Bool
  steps : List StepTemplate
deriving Repr, DecidableEq

/-- The `"7天计数增值度法"` entry of `CYTOTOXIC_METHODS` in
`config/settings.py`, transcribed field by field. -/
def METHOD_7DAY : MethodDef :=
  { name := "7天计数增值度法", adjustable := false,
    steps :=
      [ { day := 1, action := "上样", description := "第一天上样" }
      , { day := 2, action := "换液", description := "第二天换液" }
      , { day := 4, action := "2天计数", description := "第四天2天计数" }
      , { day := 6, action := "4天计数", description := "第六天4天计数" }
      , { day := 9, action := "7天计数", description := "第九天7天计数" } ] }

/-- The `"USP显微镜法"` entry of `CYTOTOXIC_METHODS`. -/
def METHOD_USP : MethodDef :=
  { name := "USP显微镜法", adjustable := false,
    steps :=
      [ { day := 1, action := "上样", description := "第一天上样" }
      , { day := 2, action := "换液", description := "第二天换液" }
      , { day := 4, action := "2天观察", description := "第四天2天观察" } ] }

/-- The `"MTT-GB14233.2"` entry of `CYTOTOXIC_METHODS`. -/
def METHOD_MTT_GB : MethodDef :=
  { name := "MTT-GB14233.2", adjustable := false,
    steps :=
      [ { day := 1, action := "上样", description := "第一天上样" }
      , { day := 2, action := "换液", description := "第二天换液" }
      , { day := 5, action := "观察MTT结果", description := "第五天观察MTT结果" } ] }

/-- The `"MTT-ISO等同16886"` entry of `CYTOTOXIC_METHODS`. -/
def METHOD_MTT_ISO : MethodDef :=
  { name := "MTT-ISO等同16886", adjustable := false,
    steps :=
      [ { day := 1, action := "上样", description := "第一天上样" }
      , { day := 2, action := "换液", description := "第二天换液" }
      , { day := 3, action := "观察MTT结果", description := "第三天观察MTT结果" } ] }

/-- The `"日本药局方"` entry of `CYTOTOXIC_METHODS`: the only adjustable
method; its day-9 step carries the flexible window `[9, 10, 11]`. -/
def METHOD_JP : MethodDef :=
  { name := "日本药局方", adjustable := true,
    steps :=
      [ { day := 1, action := "上样", description := "第一天上样" }
      , { day := 2, action := "换液", description := "第二天换液" }
      , { day := 9, action := "计数", description := "第9-11天选择一天计数",
          adjustable := true, flexible_days := [9, 10, 11] } ] }

/-- The five-method catalog `CYTOTOXIC_METHODS` of `config/settings.py`
(dict in insertion order). -/
def CYTOTOXIC_METHODS : List MethodDef :=
  [METHOD_7DAY, METHOD_USP, METHOD_MTT_GB, METHOD_MTT_ISO, METHOD_JP]

/-- Catalog lookup `self.methods[method_name]` guarded by the
`method_name not in self.methods` check in
`calculate_experiment_schedule`; `none` models the raised `ValueError`.
Method names in the catalog are unique, so `find?` agrees with the
Python dict lookup. -/
def get_cytotoxic_method? (method_name : String) : Option MethodDef :=
  CYTOTOXIC_METHODS.find? (fun m => m.name == method_name)

/-- One scheduled step of the computed record, from
`calculate_experiment_schedule` in `utils/schedule_utils.py`.
The Python record stores `original_date` and `date_str` as `YYYY-MM-DD`
renderings (`strftime`) of the corresponding `date` values; the
rendering is injective, so they are modelled by the date values
themselves, and `date_str` (always the rendering of `scheduled_date`)
is not duplicated as a field. -/
structure ScheduledStep where
  step_name : String
  description : String
  relative_day : Nat
  scheduled_date : Int
  is_workday : Bool
  original_date : Int
  was_adjusted : Bool
deriving Repr, DecidableEq

/-- The record returned by `calculate_experiment_schedule`. -/
structure ExperimentRecord where
  method_name : String
  start_date : Int
  end_date : Int
  sample_batch : String
  notes : String
  steps : List ScheduledStep
  total_days : Int
deriving Repr, DecidableEq

/-- `get_next_workday` of `utils/calendar_utils.py` walks forward day by
day (`next = d+1; while not is_workday(next): next += 1`), an unbounded
loop; the embedding bounds the walk by a fuel of 36500 days (a century),
within which every real holiday table has a workday.  This branch is
unreachable for every catalog method (no adjustable method other than
`日本药局方` exists), so no theorem depends on the fuel. -/
def nextWorkdayAux (W : Int → Bool) : Nat → Int → Int
  | 0, d => d
  | n + 1, d => if W d then d else nextWorkdayAux W n (d + 1)

/-- See `nextWorkdayAux`. -/
def get_next_workday (W : Int → Bool) (d : Int) : Int :=
  nextWorkdayAux W 36500 (d + 1)

/-- The flexible-window branch of `calculate_experiment_schedule`
(`if step.get("flexible_days")` inside the `日本药局方` case): scan
`flexible_days` in order for the first offset landing on a workday
(`best_day`), and fall back to the step's own `day` when none does. -/
def jpFlexStep (W : Int → Bool) (start : Int) (step : StepTemplate) : ScheduledStep :=
  let bestDay := (step.flexible_days.find? (fun day : Nat => W (start + (day : Int) - 1))).getD step.day
  let bestDate := start + (bestDay : Int) - 1
  let origDate := start + (step.day : Int) - 1
  { step_name := step.action
  , description := "第" ++ toString bestDay ++ "天" ++ step.action
  , relative_day := bestDay
  , scheduled_date := bestDate
  , is_workday := W bestDate
  , original_date := origDate
  , was_adjusted := bestDate != origDate }

/-- A fixed step record: shared shape of the non-flexible branch of the
`日本药局方` case and the no-adjustment branch of
`calculate_experiment_schedule` (both set `scheduled_date` to the
nominal date and `was_adjusted` to `False`). -/
def fixedStep (W : Int → Bool) (start : Int) (step : StepTemplate) : ScheduledStep :=
  let d := start + (step.day : Int) - 1
  { step_name := step.action
  , description := step.description
  , relative_day := step.day
  , scheduled_date := d
  , is_workday := W d
  , original_date := d
  , was_adjusted := false }

/-- The generic adjustable branch of `calculate_experiment_schedule`
(`# 其他可调整方法（目前没有）`): step-level `adjustable` steps on
non-workdays advance via `get_next_workday`.  Unreachable for the
shipped catalog. -/
def genericAdjStep (W : Int → Bool) (start : Int) (step : StepTemplate) : ScheduledStep :=
  let d0 := start + (step.day : Int) - 1
  let d := if step.adjustable && !(W d0) then get_next_workday W d0 else d0
  { step_name := step.action
  , description := step.description
  , relative_day := step.day
  , scheduled_date := d
  , is_workday := W d
  , original_date := d0
  , was_adjusted := d != d0 }

/-- The step-scheduling loop of `calculate_experiment_schedule`:
dispatch on `adjust_workdays and method_adjustable`, then on
`method_name == "日本药局方"`. -/
def scheduleSteps (W : Int → Bool) (adjust_workdays : Bool) (start : Int)
    (m : MethodDef) : List ScheduledStep :=
  if adjust_workdays && m.adjustable then
    if m.name == "日本药局方" then
      m.steps.map (fun step =>
        if !step.flexible_days.isEmpty then jpFlexStep W start step
        else fixedStep W start step)
    else
      m.steps.map (genericAdjStep W start)
  else
    m.steps.map (fixedStep W start)

/-- Python `max(iterable)` over a list of dates: `none` models the
`ValueError` raised on an empty iterable. -/
def listMax? : List Int → Option Int
  | [] => none
  | x :: xs => some (xs.foldl max x)

/-- Record assembly of `calculate_experiment_schedule` after the method
lookup: `end_date = max(step["scheduled_date"] ...)`,
`total_days = (end_date - start_date).days + 1`. -/
def calcScheduleRecord (W : Int → Bool) (adjust_workdays : Bool) (start_date : Int)
    (m : MethodDef) (sample_batch notes : String) : Option ExperimentRecord :=
  let ss := scheduleSteps W adjust_workdays start_date m
  match listMax? (ss.map (·.scheduled_date)) with
  | none => none
  | some endDate =>
      some { method_name := m.name
           , start_date := start_date
           , end_date := endDate
           , sample_batch := sample_batch
           , notes := notes
           , steps := ss
           , total_days := endDate - start_date + 1 }

/-- `ExperimentScheduler.calculate_experiment_schedule` of
`utils/schedule_utils.py`, parameterised by the workday oracle `W` and
the `scheduling.adjust_workdays` setting.  `none` models the
`ValueError` on an unknown method name. -/
def calculate_experiment_schedule (W : Int → Bool) (adjust_workdays : Bool)
    (start_date : Int) (method_name : String) (sample_batch notes : String) :
    Option ExperimentRecord :=
  match get_cytotoxic_method? method_name with
  | none => none
  | some m => calcScheduleRecord W adjust_workdays start_date m sample_batch notes

/-! ## Archiving (`allergy-cytotoxic/utils/data_archive.py`) -/

/-- The `end_date` entry of an experiment dict as seen by
`should_archive_experiment`: the key may be missing, hold an ISO date
string (which `date.fromisoformat` parses or rejects), or hold a live
`date` value.  `bad` covers any value whose handling raises inside the
`try` block (an unparseable string or a non-date, non-string value). -/
inductive EndDateField where
  | missing : EndDateField
  | bad : EndDateField
  | val : Int → EndDateField
deriving Repr, DecidableEq

/-- The fields of an experiment dict consulted by the archive module.
`exp_id` and `sample_batch` are read with `exp.get(...)`, so each is
optional (`none` models a missing key / Python `None`). -/
structure ArchExp where
  exp_id : Option Int
  sample_batch : Option String
  end_date : EndDateField
deriving Repr, DecidableEq

/-- `DataArchiver.should_archive_experiment`: `False` when the
`end_date` key is missing; otherwise parse/keep the end date and test
`(date.today() - end_date).days > archive_threshold_days`; any
exception inside the `try` (unparseable value) yields `False`.
`date.today()` is passed explicitly as `today`. -/
def should_archive_experiment (today : Int) (e : ArchExp)
    (archive_threshold_days : Int) : Bool :=
  match e.end_date with
  | .missing => false
  | .bad => false
  | .val endDate => decide (today - endDate > archive_threshold_days)

/-- `DataArchiver.get_archivable_experiments`: split the input list into
the records satisfying `should_archive_experiment` and the rest, each
kept in input order. -/
def get_archivable_experiments (today : Int) (experiments : List ArchExp)
    (archive_threshold_days : Int) : List ArchExp × List ArchExp :=
  match experiments with
  | [] => ([], [])
  | exp :: rest =>
      let (archivable, to_keep) := get_archivable_experiments today rest archive_threshold_days
      if should_archive_experiment today exp archive_threshold_days then
        (exp :: archivable, to_keep)
      else
        (archivable, exp :: to_keep)

/-- `DataArchiver.archive_experiments`, returning
`(archived_count, kept_count)`.  The archive-store round trip
(`load_archived_experiments` / `save_archived_experiments`) is an
external I/O collaborator; its success is the parameter `saveOk`
(`False` models the `save` failure branch that returns
`(0, len(experiments))`). -/
def archive_experiments (today : Int) (saveOk : Bool)
    (experiments : List ArchExp) (archive_threshold_days : Int) : Int × Int :=
  let (archivable, to_keep) := get_archivable_experiments today experiments archive_threshold_days
  if archivable.isEmpty then
    (0, experiments.length)
  else if saveOk then
    (archivable.length, to_keep.length)
  else
    (0, experiments.length)

/-- `manual_archive_by_exp_id`: split the list by
`exp.get('exp_id') == exp_id`, return unchanged when nothing matches,
otherwise force-archive the matching records with
`archive_threshold_days=0` and return the non-matching records plus the
archived count. -/
def manual_archive_by_exp_id (today : Int) (saveOk : Bool)
    (experiments : List ArchExp) (eid : Int) : List ArchExp × Int :=
  let to_archive := experiments.filter (fun e => e.exp_id == some eid)
  let to_keep := experiments.filter (fun e => !(e.exp_id == some eid))
  if to_archive.isEmpty then
    (experiments, 0)
  else
    (to_keep, (archive_experiments today saveOk to_archive 0).1)

/-- `manual_archive_by_sample_batch`: as `manual_archive_by_exp_id` but
matching on `exp.get('sample_batch') == sample_batch`. -/
def manual_archive_by_sample_batch (today : Int) (saveOk : Bool)
    (experiments : List ArchExp) (batch : String) : List ArchExp × Int :=
  let to_archive := experiments.filter (fun e => e.sample_batch == some batch)
  let to_keep := experiments.filter (fun e => !(e.sample_batch == some batch))
  if to_archive.isEmpty then
    (experiments, 0)
  else
    (to_keep, (archive_experiments today saveOk to_archive 0).1)

/-! ## Status classification (`app.py`, `render_experiment_query`) -/

/-- The three experiment statuses shown by the query view of `app.py`:
`已完成` (completed), `进行中` (in progress), `即将开始` (not yet
started). -/
inductive ExperimentStatus where
  | completed : ExperimentStatus
  | inProgress : ExperimentStatus
  | upcoming : ExperimentStatus
deriving Repr, DecidableEq

/-- The status computation of `render_experiment_query` in `app.py`:
`if exp['end_date'] < today: "已完成" elif exp['start_date'] <= today <=
exp['end_date']: "进行中" else: "即将开始"`. -/
def experiment_status (start_date end_date today : Int) : ExperimentStatus :=
  if end_date < today then .completed
  else if start_date ≤ today ∧ today ≤ end_date then .inProgress
  else .upcoming

/-! ## Notification gate and scheduler tick (`utils/scheduler.py`)

Instants are integer seconds on one absolute axis.  `todayMid` is the
midnight of `now`'s calendar day (`datetime.combine(current_time.date(),
push_time)` = `todayMid + pushSec`), `pushSec` the parsed `push_time`
seconds-of-day, `startTime` the scheduler's `start_time`.  The
`last_push_date`/`last_push_time`/`push_time` strings are compared only
for equality, exactly as in the source. -/

/-- `NotificationScheduler._should_send_auto_notification`, for a
well-formed `push_time` (the `ValueError` branch of the source returns
`False` for an unparseable `push_time` and is outside this model's
inputs).  The `hasattr(self, 'start_time')` guard always holds once the
scheduler has started. -/
def should_send_auto_notification (lastPushDate lastPushTime pushTimeStr todayStr : String)
    (todayMid pushSec now startTime : Int) : Bool :=
  if lastPushDate == todayStr && lastPushTime == pushTimeStr then
    false
  else
    let pushInstant := todayMid + pushSec
    let windowStart := pushInstant - 30
    let windowEnd := pushInstant + 30
    if now - startTime < 60 then false
    else if now < windowStart then false
    else if windowStart ≤ now && now ≤ windowEnd then true
    else false

/-- The keyword parameters accepted by `update_notification_settings`
in `config/settings.py` (`enabled`, `webhook_url`, `push_time`,
`last_push_date` — there is NO `last_push_time` parameter and no
`**kwargs`). -/
def UPDATE_NOTIFICATION_SETTINGS_PARAMS : List String :=
  ["enabled", "webhook_url", "push_time", "last_push_date"]

/-- The keyword arguments passed at the success-branch call site in
`_run_scheduler` (`utils/scheduler.py`, the
`update_notification_settings(last_push_date=today_str,
last_push_time=settings["push_time"])` call). -/
def SCHEDULER_UPDATE_CALL_KWARGS : List String :=
  ["last_push_date", "last_push_time"]

/-- Python keyword-argument binding: a call binds iff every keyword
names an accepted parameter; otherwise the call raises `TypeError`
before the callee's body runs. -/
def kwargsBind (params kwargs : List String) : Bool :=
  kwargs.all (fun k => params.contains k)

/-- One pass of the `_run_scheduler` polling loop, restricted to its
effect on the stored notification bookkeeping
(`last_push_date`, `last_push_time`): when notifications are enabled, a
webhook is configured and `_should_send_auto_notification` fires, the
push runs (`send_daily_report`, an external transport whose outcome is
`sendSuccess`).  On success the loop calls
`update_notification_settings` with the keywords
`SCHEDULER_UPDATE_CALL_KWARGS`; the stored pair is rewritten only if
that call binds — with the source's parameter list it does not
(`last_push_time` is not a parameter), the call raises `TypeError`,
the loop's blanket `except` swallows it, and the stored pair stays
unchanged. -/
def run_scheduler_tick (enabled : Bool) (webhookUrl : String)
    (lastPushDate lastPushTime pushTimeStr todayStr : String)
    (todayMid pushSec now startTime : Int) (sendSuccess : Bool) :
    String × String :=
  if enabled && !(webhookUrl == "") then
    if should_send_auto_notification lastPushDate lastPushTime pushTimeStr todayStr
        todayMid pushSec now startTime then
      if sendSuccess then
        if kwargsBind UPDATE_NOTIFICATION_SETTINGS_PARAMS SCHEDULER_UPDATE_CALL_KWARGS then
          (todayStr, pushTimeStr)
        else
          (lastPushDate, lastPushTime)
      else (lastPushDate, lastPushTime)
    else (lastPushDate, lastPushTime)
  else (lastPushDate, lastPushTime)

/-! ## Helper lemmas -/

theorem le_foldl_max (xs : List Int) (a : Int) : a ≤ xs.foldl max a := by
  induction xs generalizing a with
  | nil => exact le_refl a
  | cons x xs ih =>
      calc a ≤ max a x := le_max_left a x
        _ ≤ xs.foldl max (max a x) := ih (max a x)
        _ = (x :: xs).foldl max a := rfl

theorem mem_le_foldl_max (xs : List Int) (a : Int) :
    ∀ x ∈ xs, x ≤ xs.foldl max a := by
  induction xs generalizing a with
  | nil => intro x hx; cases hx
  | cons y ys ih =>
      intro x hx
      rcases List.mem_cons.mp hx with rfl | hx
      · calc x ≤ max a x := le_max_right a x
          _ ≤ ys.foldl max (max a x) := le_foldl_max ys (max a x)
      · exact ih (max a y) x hx

theorem foldl_max_mem (xs : List Int) (a : Int) :
    xs.foldl max a = a ∨ xs.foldl max a ∈ xs := by
  induction xs generalizing a with
  | nil => exact Or.inl rfl
  | cons y ys ih =>
      rcases ih (max a y) with h | h
      · rcases max_choice a y with hm | hm
        · exact Or.inl (by simpa [hm] using h)
        · exact Or.inr (by simp [List.foldl_cons] at h ⊢; rw [h, hm]; exact Or.inl rfl)
      · exact Or.inr (List.mem_cons_of_mem y h)

theorem listMax?_eq_some {l : List Int} {v : Int} (h : listMax? l = some v) :
    v ∈ l ∧ ∀ x ∈ l, x ≤ v := by
  cases l with
  | nil => cases h
  | cons x xs =>
      have hv : xs.foldl max x = v := by simpa [listMax?] using h
      subst hv
      constructor
      · rcases foldl_max_mem xs x with h' | h'
        · rw [h']; exact List.mem_cons_self x xs
        · exact List.mem_cons_of_mem x h'
      · intro y hy
        rcases List.mem_cons.mp hy with rfl | hy
        · exact le_foldl_max xs y
        · exact mem_le_foldl_max xs x y hy

/-! ## Claim theorems -/

/-- C1: with the global `adjust_workdays` flag true, the flexible step of
the adjustable method `日本药局方` is scheduled by scanning its
`flexible_days` window `[9, 10, 11]` in ascending order and taking
`start_date + (d - 1)` for the first offset `d` whose date is a
workday; in particular starting `2024-06-07` with `2024-06-15` and
`2024-06-16` non-workdays and `2024-06-17` a workday, the chosen date is
`2024-06-17` with `was_adjusted = true`. -/
theorem C1_flexible_window_first_workday (W : Int → Bool) (b n : String) :
    (∀ start : Int, W (start + 8) = true →
      (calculate_experiment_schedule W true start "日本药局方" b n).map
          (fun r => r.steps.map (fun s => (s.scheduled_date, s.relative_day, s.was_adjusted))) =
        some [(start, 1, false), (start + 1, 2, false), (start + 8, 9, false)]) ∧
    (∀ start : Int, W (start + 8) = false → W (start + 9) = true →
      (calculate_experiment_schedule W true start "日本药局方" b n).map
          (fun r => r.steps.map (fun s => (s.scheduled_date, s.relative_day, s.was_adjusted))) =
        some [(start, 1, false), (start + 1, 2, false), (start + 9, 10, true)]) ∧
    (∀ start : Int, W (start + 8) = false → W (start + 9) = false → W (start + 10) = true →
      (calculate_experiment_schedule W true start "日本药局方" b n).map
          (fun r => r.steps.map (fun s => (s.scheduled_date, s.relative_day, s.was_adjusted))) =
        some [(start, 1, false), (start + 1, 2, false), (start + 10, 11, true)]) ∧
    (W (daysFromCivil 2024 6 15) = false → W (daysFromCivil 2024 6 16) = false →
     W (daysFromCivil 2024 6 17) = true →
      (calculate_experiment_schedule W true (daysFromCivil 2024 6 7) "日本药局方" b n).map
          (fun r => r.steps.map (fun s => (s.scheduled_date, s.was_adjusted))) =
        some [(daysFromCivil 2024 6 7, false), (daysFromCivil 2024 6 8, false),
              (daysFromCivil 2024 6 17, true)]) := by
  refine ⟨?_, ?_, ?_, ?_⟩
  · intro start h8
    have hfind : (([9, 10, 11] : List Nat).find? (fun day : Nat => W (start + (day : Int) - 1)))
        = some 9 := by
      rw [List.find?_cons_of_pos]
      rw [show start + ((9 : Nat) : Int) - 1 = start + 8 by push_cast; ring, h8]
    simp [calculate_experiment_schedule, get_cytotoxic_method?, CYTOTOXIC_METHODS, METHOD_7DAY, METHOD_USP, METHOD_MTT_GB, METHOD_MTT_ISO, METHOD_JP,
      calcScheduleRecord, scheduleSteps, listMax?, jpFlexStep, fixedStep, hfind]
    omega
  · intro start h8 h9
    have hfind : (([9, 10, 11] : List Nat).find? (fun day : Nat => W (start + (day : Int) - 1)))
        = some 10 := by
      rw [List.find?_cons_of_neg, List.find?_cons_of_pos]
      · rw [show start + ((10 : Nat) : Int) - 1 = start + 9 by push_cast; ring, h9]
      · rw [show start + ((9 : Nat) : Int) - 1 = start + 8 by push_cast; ring, h8]; simp
    simp [calculate_experiment_schedule, get_cytotoxic_method?, CYTOTOXIC_METHODS, METHOD_7DAY, METHOD_USP, METHOD_MTT_GB, METHOD_MTT_ISO, METHOD_JP,
      calcScheduleRecord, scheduleSteps, listMax?, jpFlexStep, fixedStep, hfind]
    omega
  · intro start h8 h9 h10
    have hfind : (([9, 10, 11] : List Nat).find? (fun day : Nat => W (start + (day : Int) - 1)))
        = some 11 := by
      rw [List.find?_cons_of_neg, List.find?_cons_of_neg, List.find?_cons_of_pos]
      · rw [show start + ((11 : Nat) : Int) - 1 = start + 10 by push_cast; ring, h10]
      · rw [show start + ((10 : Nat) : Int) - 1 = start + 9 by push_cast; ring, h9]; simp
      · rw [show start + ((9 : Nat) : Int) - 1 = start + 8 by push_cast; ring, h8]; simp
    simp [calculate_experiment_schedule, get_cytotoxic_method?, CYTOTOXIC_METHODS, METHOD_7DAY, METHOD_USP, METHOD_MTT_GB, METHOD_MTT_ISO, METHOD_JP,
      calcScheduleRecord, scheduleSteps, listMax?, jpFlexStep, fixedStep, hfind]
    omega
  · intro h15 h16 h17
    have hfind : (([9, 10, 11] : List Nat).find?
        (fun day : Nat => W (daysFromCivil 2024 6 7 + (day : Int) - 1))) = some 11 := by
      rw [List.find?_cons_of_neg, List.find?_cons_of_neg, List.find?_cons_of_pos]
      · rw [show daysFromCivil 2024 6 7 + ((11 : Nat) : Int) - 1 = daysFromCivil 2024 6 17
          by decide, h17]
      · rw [show daysFromCivil 2024 6 7 + ((10 : Nat) : Int) - 1 = daysFromCivil 2024 6 16
          by decide, h16]; simp
      · rw [show daysFromCivil 2024 6 7 + ((9 : Nat) : Int) - 1 = daysFromCivil 2024 6 15
          by decide, h15]; simp
    simp [calculate_experiment_schedule, get_cytotoxic_method?, CYTOTOXIC_METHODS, METHOD_7DAY, METHOD_USP, METHOD_MTT_GB, METHOD_MTT_ISO, METHOD_JP,
      calcScheduleRecord, scheduleSteps, listMax?, jpFlexStep, fixedStep, hfind]
    refine ⟨by decide, by decide⟩

/-- Witness for C1: a concrete oracle on which only `2024-06-17` among
the window dates is a workday; the flexible step lands there, adjusted. -/
theorem C1_witness :
    (calculate_experiment_schedule (fun d => decide (d = daysFromCivil 2024 6 17)) true
        (daysFromCivil 2024 6 7) "日本药局方" "" "").map
        (fun r => r.steps.map (fun s => (s.scheduled_date, s.was_adjusted))) =
      some [(daysFromCivil 2024 6 7, false), (daysFromCivil 2024 6 8, false),
            (daysFromCivil 2024 6 17, true)] :=
  (C1_flexible_window_first_workday (fun d => decide (d = daysFromCivil 2024 6 17)) "" "").2.2.2
    (by decide) (by decide) (by decide)

/-- Counterexample to C2 as stated: on an oracle with no workdays at
all, the flexible step of `日本药局方` falls back to its own day 9
(`scheduled_date = start + 8 = original_date`), so the code records
`was_adjusted = false` — not `true` as the claim asserts (the fallback
date equals the original date, and `was_adjusted` is computed as
`best_date != original`). -/
theorem C2_counterexample :
    (calculate_experiment_schedule (fun _ => false) true 0 "日本药局方" "" "").map
        (fun r => r.steps.map (fun s => (s.scheduled_date, s.is_workday, s.was_adjusted))) =
      some [(0, false, false), (1, false, false), (8, false, false)] ∧
    ¬ ((calculate_experiment_schedule (fun _ => false) true 0 "日本药局方" "" "").map
        (fun r => r.steps.map (fun s => s.was_adjusted)) = some [false, false, true]) := by
  constructor
  · rfl
  · intro h
    simp [calculate_experiment_schedule, get_cytotoxic_method?, CYTOTOXIC_METHODS, METHOD_7DAY, METHOD_USP, METHOD_MTT_GB, METHOD_MTT_ISO, METHOD_JP,
      calcScheduleRecord, scheduleSteps, listMax?, jpFlexStep, fixedStep, List.find?] at h

/-- C2 (amended): when no offset of the flexible window lands on a
workday, the step is still scheduled, at the window's first offset
(the step's own `relative_day`, 9): `scheduled_date = start_date +
(relative_day - 1) = original_date`, with `is_workday = false` and
`was_adjusted = false` (not `true`: the fallback date equals the
original date). -/
theorem C2_flexible_fallback_earliest (W : Int → Bool) (b n : String) (start : Int)
    (h8 : W (start + 8) = false) (h9 : W (start + 9) = false) (h10 : W (start + 10) = false) :
    (calculate_experiment_schedule W true start "日本药局方" b n).map
        (fun r => r.steps.map
          (fun s => (s.scheduled_date, s.relative_day, s.original_date, s.is_workday, s.was_adjusted))) =
      some [(start, 1, start, W start, false),
            (start + 1, 2, start + 1, W (start + 1), false),
            (start + 8, 9, start + 8, false, false)] := by
  have hfind : (([9, 10, 11] : List Nat).find? (fun day : Nat => W (start + (day : Int) - 1)))
      = none := by
    rw [List.find?_cons_of_neg, List.find?_cons_of_neg, List.find?_cons_of_neg, List.find?_nil]
    · rw [show start + ((11 : Nat) : Int) - 1 = start + 10 by push_cast; ring, h10]; simp
    · rw [show start + ((10 : Nat) : Int) - 1 = start + 9 by push_cast; ring, h9]; simp
    · rw [show start + ((9 : Nat) : Int) - 1 = start + 8 by push_cast; ring, h8]; simp
  simp [calculate_experiment_schedule, get_cytotoxic_method?, CYTOTOXIC_METHODS, METHOD_7DAY, METHOD_USP, METHOD_MTT_GB, METHOD_MTT_ISO, METHOD_JP,
    calcScheduleRecord, scheduleSteps, listMax?, jpFlexStep, fixedStep, hfind]
  rw [show start + (2 : Int) - 1 = start + 1 by ring, show start + (9 : Int) - 1 = start + 8 by ring,
    h8]
  simp

/-- Witness for the amended C2 at the all-rest-days oracle. -/
theorem C2_witness :
    (calculate_experiment_schedule (fun _ => false) true 0 "日本药局方" "" "").map
        (fun r => r.steps.map
          (fun s => (s.scheduled_date, s.relative_day, s.original_date, s.is_workday, s.was_adjusted))) =
      some [(0, 1, 0, false, false), (1, 2, 1, false, false), (8, 9, 8, false, false)] := by
  have h := C2_flexible_fallback_earliest (fun _ => false) "" "" 0 rfl rfl rfl
  simpa using h

/-- C3: for every catalog method with `adjustable = false`, every start
date, either value of the global `adjust_workdays` flag and any oracle,
every step is scheduled at `start_date + (relative_day - 1)` with
`was_adjusted = false`; in particular `7天计数增值度法` started
`2024-06-03` yields step dates `2024-06-03, 06-04, 06-06, 06-08, 06-11`
with `end_date = 2024-06-11` and `total_days = 9`. -/
theorem C3_non_adjustable_methods_fixed (W : Int → Bool) (adjust : Bool) (start : Int)
    (name b n : String) (m : MethodDef) (rec : ExperimentRecord)
    (hm : get_cytotoxic_method? name = some m)
    (hadj : m.adjustable = false)
    (hc : calculate_experiment_schedule W adjust start name b n = some rec) :
    (rec.steps.map (fun s => s.scheduled_date) = m.steps.map (fun s => start + (s.day : Int) - 1) ∧
     ∀ s ∈ rec.steps, s.was_adjusted = false ∧ s.scheduled_date = s.original_date) ∧
    (∀ (W' : Int → Bool) (adjust' : Bool) (b' n' : String),
      (calculate_experiment_schedule W' adjust' (daysFromCivil 2024 6 3) "7天计数增值度法" b' n').map
          (fun r => (r.steps.map (fun s => (s.scheduled_date, s.was_adjusted)),
                     r.end_date, r.total_days)) =
        some ([(daysFromCivil 2024 6 3, false), (daysFromCivil 2024 6 4, false),
               (daysFromCivil 2024 6 6, false), (daysFromCivil 2024 6 8, false),
               (daysFromCivil 2024 6 11, false)], daysFromCivil 2024 6 11, 9)) := by
  constructor
  · have hss : scheduleSteps W adjust start m = m.steps.map (fixedStep W start) := by
      simp [scheduleSteps, hadj]
    simp only [calculate_experiment_schedule, hm, calcScheduleRecord, hss] at hc
    cases hmax : listMax? ((m.steps.map (fixedStep W start)).map (fun s => s.scheduled_date)) with
    | none =>
        rw [hmax] at hc
        simp at hc
    | some v =>
        rw [hmax] at hc
        simp only [Option.some.injEq] at hc
        subst hc
        constructor
        · rw [List.map_map]
          exact List.map_congr_left (fun s _ => rfl)
        · intro s hs
          obtain ⟨t, _, rfl⟩ := List.mem_map.mp hs
          exact ⟨rfl, rfl⟩
  · intro W' adjust' b' n'
    have h3 : daysFromCivil 2024 6 3 = 19877 := by decide
    have h4 : daysFromCivil 2024 6 4 = 19878 := by decide
    have h6 : daysFromCivil 2024 6 6 = 19880 := by decide
    have h8 : daysFromCivil 2024 6 8 = 19882 := by decide
    have h11 : daysFromCivil 2024 6 11 = 19885 := by decide
    rw [h3, h4, h6, h8, h11]
    simp [calculate_experiment_schedule, get_cytotoxic_method?, CYTOTOXIC_METHODS, METHOD_7DAY, METHOD_USP, METHOD_MTT_GB, METHOD_MTT_ISO, METHOD_JP,
      calcScheduleRecord, scheduleSteps, listMax?, fixedStep]

/-- Witness for C3 at a concrete oracle, flag and start date. -/
theorem C3_witness :
    ∃ rec, calculate_experiment_schedule (fun _ => true) true 0 "USP显微镜法" "" "" = some rec ∧
      rec.steps.map (fun s => s.scheduled_date) = [0, 1, 3] ∧
      ∀ s ∈ rec.steps, s.was_adjusted = false ∧ s.scheduled_date = s.original_date := by
  refine ⟨_, rfl, ?_⟩
  have h := C3_non_adjustable_methods_fixed (fun _ => true) true 0 "USP显微镜法" "" ""
    _ _ rfl rfl rfl
  exact ⟨by simpa using h.1.1, h.1.2⟩

/-- The day chosen by the `flexible_days = [9, 10, 11]` scan is one of
9, 10, 11 (also under the fallback). -/
theorem jp_bestDay_cases (p : Nat → Bool) :
    (([9, 10, 11] : List Nat).find? p).getD 9 = 9 ∨
    (([9, 10, 11] : List Nat).find? p).getD 9 = 10 ∨
    (([9, 10, 11] : List Nat).find? p).getD 9 = 11 := by
  cases h9 : p 9 <;> cases h10 : p 10 <;> cases h11 : p 11 <;>
    simp [List.find?_cons, h9, h10, h11]

/-- For every catalog method, some scheduled step lies at least
`distinct-template-day-count - 1` days after the start. -/
theorem catalog_schedule_reaches_count (m : MethodDef) (hm : m ∈ CYTOTOXIC_METHODS)
    (W : Int → Bool) (adjust : Bool) (start : Int) :
    ∃ s ∈ scheduleSteps W adjust start m,
      start + ((m.steps.map StepTemplate.day).dedup.length : Int) - 1 ≤ s.scheduled_date := by
  simp only [CYTOTOXIC_METHODS, List.mem_cons, List.not_mem_nil, or_false] at hm
  rcases hm with rfl | rfl | rfl | rfl | rfl
  · refine ⟨fixedStep W start { day := 9, action := "7天计数", description := "第九天7天计数" },
      ?_, ?_⟩
    · rw [show scheduleSteps W adjust start METHOD_7DAY
          = METHOD_7DAY.steps.map (fixedStep W start) from by simp [scheduleSteps, METHOD_7DAY]]
      exact List.mem_map_of_mem _ (by decide)
    · rw [show ((METHOD_7DAY.steps.map StepTemplate.day).dedup.length : Int) = 5 from by decide]
      simp [fixedStep]
  · refine ⟨fixedStep W start { day := 4, action := "2天观察", description := "第四天2天观察" },
      ?_, ?_⟩
    · rw [show scheduleSteps W adjust start METHOD_USP
          = METHOD_USP.steps.map (fixedStep W start) from by simp [scheduleSteps, METHOD_USP]]
      exact List.mem_map_of_mem _ (by decide)
    · rw [show ((METHOD_USP.steps.map StepTemplate.day).dedup.length : Int) = 3 from by decide]
      simp [fixedStep]
  · refine ⟨fixedStep W start { day := 5, action := "观察MTT结果", description := "第五天观察MTT结果" },
      ?_, ?_⟩
    · rw [show scheduleSteps W adjust start METHOD_MTT_GB
          = METHOD_MTT_GB.steps.map (fixedStep W start) from by simp [scheduleSteps, METHOD_MTT_GB]]
      exact List.mem_map_of_mem _ (by decide)
    · rw [show ((METHOD_MTT_GB.steps.map StepTemplate.day).dedup.length : Int) = 3 from by decide]
      simp [fixedStep]
  · refine ⟨fixedStep W start { day := 3, action := "观察MTT结果", description := "第三天观察MTT结果" },
      ?_, ?_⟩
    · rw [show scheduleSteps W adjust start METHOD_MTT_ISO
          = METHOD_MTT_ISO.steps.map (fixedStep W start) from by simp [scheduleSteps, METHOD_MTT_ISO]]
      exact List.mem_map_of_mem _ (by decide)
    · rw [show ((METHOD_MTT_ISO.steps.map StepTemplate.day).dedup.length : Int) = 3 from by decide]
      simp [fixedStep]
  · cases adjust with
    | false =>
        refine ⟨fixedStep W start ⟨9, "计数", "第9-11天选择一天计数", true, [9, 10, 11]⟩, ?_, ?_⟩
        · rw [show scheduleSteps W false start METHOD_JP
              = METHOD_JP.steps.map (fixedStep W start) from by simp [scheduleSteps]]
          exact List.mem_map_of_mem _ (by decide)
        · rw [show ((METHOD_JP.steps.map StepTemplate.day).dedup.length : Int) = 3 from by decide]
          simp [fixedStep]
    | true =>
        refine ⟨jpFlexStep W start ⟨9, "计数", "第9-11天选择一天计数", true, [9, 10, 11]⟩, ?_, ?_⟩
        · simp [scheduleSteps, METHOD_JP]
        · rw [show ((METHOD_JP.steps.map StepTemplate.day).dedup.length : Int) = 3 from by decide]
          simp only [jpFlexStep]
          rcases jp_bestDay_cases
              (fun day : Nat => W (start + (day : Int) - 1)) with h | h | h <;>
            simp [h]

/-- C4: for every oracle, flag, start date and catalog method, the
computed record has `end_date` equal to the maximum `scheduled_date`
over all steps, `total_days = (end_date - start_date) + 1`, and
`total_days` at least the number of distinct relative days in the
method template. -/
theorem C4_end_date_and_total_days (W : Int → Bool) (adjust : Bool) (start : Int)
    (name b n : String) (m : MethodDef) (rec : ExperimentRecord)
    (hm : get_cytotoxic_method? name = some m)
    (hc : calculate_experiment_schedule W adjust start name b n = some rec) :
    (∀ s ∈ rec.steps, s.scheduled_date ≤ rec.end_date) ∧
    (∃ s ∈ rec.steps, s.scheduled_date = rec.end_date) ∧
    rec.total_days = rec.end_date - rec.start_date + 1 ∧
    ((m.steps.map StepTemplate.day).dedup.length : Int) ≤ rec.total_days := by
  have hmem : m ∈ CYTOTOXIC_METHODS := List.mem_of_find?_eq_some hm
  simp only [calculate_experiment_schedule, hm, calcScheduleRecord] at hc
  cases hmax : listMax? ((scheduleSteps W adjust start m).map (fun s => s.scheduled_date)) with
  | none =>
      rw [hmax] at hc
      simp at hc
  | some v =>
      rw [hmax] at hc
      simp only [Option.some.injEq] at hc
      subst hc
      obtain ⟨hvmem, hvmax⟩ := listMax?_eq_some hmax
      refine ⟨?_, ?_, rfl, ?_⟩
      · intro s hs
        exact hvmax _ (List.mem_map_of_mem _ hs)
      · obtain ⟨s, hs, hsv⟩ := List.mem_map.mp hvmem
        exact ⟨s, hs, hsv⟩
      · obtain ⟨s, hs, hsle⟩ := catalog_schedule_reaches_count m hmem W adjust start
        have hsv : s.scheduled_date ≤ v := hvmax _ (List.mem_map_of_mem _ hs)
        simp only [ExperimentRecord.total_days]
        omega

/-- Witness for C4 at a concrete oracle, method and start date. -/
theorem C4_witness :
    ∃ rec, calculate_experiment_schedule (fun _ => true) true 0 "MTT-GB14233.2" "" "" = some rec ∧
      ((∀ s ∈ rec.steps, s.scheduled_date ≤ rec.end_date) ∧
       (∃ s ∈ rec.steps, s.scheduled_date = rec.end_date) ∧
       rec.total_days = rec.end_date - rec.start_date + 1 ∧
       ((([1, 2, 5] : List Nat)).dedup.length : Int) ≤ rec.total_days) := by
  refine ⟨_, rfl, ?_⟩
  have h := C4_end_date_and_total_days (fun _ => true) true 0 "MTT-GB14233.2" "" "" _ _ rfl rfl
  simpa using h

/-- `get_archivable_experiments` is the filter pair of
`should_archive_experiment`. -/
theorem get_archivable_eq_filter (today threshold : Int) (exps : List ArchExp) :
    get_archivable_experiments today exps threshold
      = (exps.filter (fun e => should_archive_experiment today e threshold),
         exps.filter (fun e => !(should_archive_experiment today e threshold))) := by
  induction exps with
  | nil => rfl
  | cons e rest ih =>
      by_cases hp : should_archive_experiment today e threshold
      · simp [get_archivable_experiments, ih, hp, List.filter_cons]
      · simp [get_archivable_experiments, ih, hp, List.filter_cons]

theorem length_filter_add_length_filter_not (p : ArchExp → Bool) (l : List ArchExp) :
    (l.filter p).length + (l.filter (fun a => !(p a))).length = l.length := by
  induction l with
  | nil => rfl
  | cons a l ih =>
      by_cases hp : p a <;> simp [List.filter_cons, hp] <;> omega

/-- C5: for every threshold and experiment list,
`get_archivable_experiments` is a stable partition of its input by
`should_archive_experiment`: membership in the archivable output is
exactly eligibility, membership in the retained output is exactly
non-eligibility, the two outputs cover the input with lengths summing
to the input's, and each output is a subsequence of the input
(relative order preserved). -/
theorem C5_archive_partition (today threshold : Int) (exps : List ArchExp) :
    (get_archivable_experiments today exps threshold).1
        = exps.filter (fun e => should_archive_experiment today e threshold) ∧
    (get_archivable_experiments today exps threshold).2
        = exps.filter (fun e => !(should_archive_experiment today e threshold)) ∧
    (∀ e, e ∈ (get_archivable_experiments today exps threshold).1 ↔
        e ∈ exps ∧ should_archive_experiment today e threshold = true) ∧
    (∀ e, e ∈ (get_archivable_experiments today exps threshold).2 ↔
        e ∈ exps ∧ should_archive_experiment today e threshold = false) ∧
    (get_archivable_experiments today exps threshold).1.length
        + (get_archivable_experiments today exps threshold).2.length = exps.length ∧
    (get_archivable_experiments today exps threshold).1.Sublist exps ∧
    (get_archivable_experiments today exps threshold).2.Sublist exps := by
  rw [get_archivable_eq_filter]
  refine ⟨rfl, rfl, ?_, ?_, ?_, List.filter_sublist _, List.filter_sublist _⟩
  · intro e
    simp [List.mem_filter]
  · intro e
    simp [List.mem_filter]
  · exact length_filter_add_length_filter_not _ exps

/-- C10: a record whose `end_date` key is missing, or whose `end_date`
value cannot be handled (unparseable string or other bad value, the
`except` branch), is never archived: `should_archive_experiment`
returns `False` for every threshold. -/
theorem C10_bad_end_date_never_archived (today threshold : Int) (e : ArchExp)
    (h : e.end_date = EndDateField.missing ∨ e.end_date = EndDateField.bad) :
    should_archive_experiment today e threshold = false := by
  rcases h with h | h <;> simp [should_archive_experiment, h]

/-- Witness for C10 on a record with the key missing and one with an
unparseable value, at two thresholds. -/
theorem C10_witness :
    should_archive_experiment 0 ⟨none, none, EndDateField.missing⟩ 180 = false ∧
    should_archive_experiment 0 ⟨some 1, some "B", EndDateField.bad⟩ 0 = false :=
  ⟨C10_bad_end_date_never_archived 0 180 _ (Or.inl rfl),
   C10_bad_end_date_never_archived 0 0 _ (Or.inr rfl)⟩

/-- Counterexample to C6 as stated: a record matching the requested
`exp_id` whose `end_date` is today is NOT archived by
`manual_archive_by_exp_id` — the threshold-0 eligibility test
`(today - end_date).days > 0` fails, so `archived_count = 0` instead of
1 — and the record is also absent from the returned retained list. -/
theorem C6_counterexample :
    (manual_archive_by_exp_id 0 true [⟨some 7, some "B1", EndDateField.val 0⟩] 7).2 = 0 ∧
    (manual_archive_by_exp_id 0 true [⟨some 7, some "B1", EndDateField.val 0⟩] 7).1 = [] :=
  ⟨rfl, rfl⟩

/-- `archive_experiments` (store save succeeding) counts exactly the
input records eligible at the given threshold. -/
theorem archive_experiments_fst (today threshold : Int) (exps : List ArchExp) :
    (archive_experiments today true exps threshold).1
      = ((exps.filter (fun e => should_archive_experiment today e threshold)).length : Int) := by
  simp only [archive_experiments, get_archivable_eq_filter]
  by_cases h : (exps.filter (fun e => should_archive_experiment today e threshold)).isEmpty
  · have hnil : exps.filter (fun e => should_archive_experiment today e threshold) = [] := by
      simpa [List.isEmpty_iff] using h
    simp [h, hnil]
  · simp [h]

/-- Shared shape of the two manual-archive functions: partition by a
match predicate, then force-archive the matches at threshold 0. -/
theorem manual_archive_core (p : ArchExp → Bool) (exps : List ArchExp) (today : Int) :
    (if (exps.filter p).isEmpty then (exps, 0)
     else (exps.filter (fun e => !(p e)), (archive_experiments today true (exps.filter p) 0).1))
      = (exps.filter (fun e => !(p e)),
         (((exps.filter p).filter (fun e => should_archive_experiment today e 0)).length : Int)) := by
  by_cases h : (exps.filter p).isEmpty
  · have hnil : exps.filter p = [] := by simpa [List.isEmpty_iff] using h
    have hall : exps.filter (fun e => !(p e)) = exps := by
      rw [List.filter_eq_self]
      intro a ha
      have hfalse : p a = false := by
        by_contra hcon
        have : a ∈ exps.filter p := List.mem_filter.mpr ⟨ha, by simpa using hcon⟩
        simp [hnil] at this
      simp [hfalse]
    simp [h, hnil, hall]
  · simp [h, archive_experiments_fst]

/-- C6 (amended): forced archiving of a given `exp_id` or
`sample_batch` applies the eligibility predicate with
`threshold_days = 0`, so among the matching records exactly those with
`end_date` strictly before today are archived and counted; the
returned list is exactly the non-matching records in order (a matching
record not eligible at threshold 0 — `end_date` today or later, or
missing/bad — is neither archived nor returned). -/
theorem C6_forced_archive_threshold_zero (today : Int) (exps : List ArchExp)
    (eid : Int) (batch : String) :
    manual_archive_by_exp_id today true exps eid
      = (exps.filter (fun e => !(e.exp_id == some eid)),
         (((exps.filter (fun e => e.exp_id == some eid)).filter
            (fun e => should_archive_experiment today e 0)).length : Int)) ∧
    manual_archive_by_sample_batch today true exps batch
      = (exps.filter (fun e => !(e.sample_batch == some batch)),
         (((exps.filter (fun e => e.sample_batch == some batch)).filter
            (fun e => should_archive_experiment today e 0)).length : Int)) := by
  constructor
  · exact manual_archive_core (fun e => e.exp_id == some eid) exps today
  · exact manual_archive_core (fun e => e.sample_batch == some batch) exps today

/-- C7: for a record with `start_date ≤ end_date`, the query view's
status is `已完成` (completed) iff `end_date < today`, `进行中` (in
progress) iff `start_date ≤ today ≤ end_date`, and `即将开始` (not
started) iff `start_date > today`; the three conditions are mutually
exclusive and exhaustive over all `today`. -/
theorem C7_status_classification (s e t : Int) (h : s ≤ e) :
    (experiment_status s e t = ExperimentStatus.completed ↔ e < t) ∧
    (experiment_status s e t = ExperimentStatus.inProgress ↔ s ≤ t ∧ t ≤ e) ∧
    (experiment_status s e t = ExperimentStatus.upcoming ↔ t < s) ∧
    ((e < t ∨ (s ≤ t ∧ t ≤ e) ∨ t < s) ∧
     ¬(e < t ∧ (s ≤ t ∧ t ≤ e)) ∧ ¬(e < t ∧ t < s) ∧ ¬((s ≤ t ∧ t ≤ e) ∧ t < s)) := by
  unfold experiment_status
  split_ifs with h1 h2
  · refine ⟨by simp [h1], ?_, ?_, by omega⟩
    · constructor
      · intro hc; cases hc
      · intro hc; omega
    · constructor
      · intro hc; cases hc
      · intro hc; omega
  · refine ⟨?_, by simp [h2], ?_, by omega⟩
    · constructor
      · intro hc; cases hc
      · intro hc; omega
    · constructor
      · intro hc; cases hc
      · intro hc; omega
  · refine ⟨?_, ?_, by simp; omega, by omega⟩
    · constructor
      · intro hc; cases hc
      · intro hc; omega
    · constructor
      · intro hc; cases hc
      · intro hc; omega

/-- Witness for C7: an experiment over on day 0 queried on day 1 is
classified completed. -/
theorem C7_witness : experiment_status 0 0 1 = ExperimentStatus.completed :=
  ((C7_status_classification 0 0 1 (by decide)).1).mpr (by decide)

/-- C8: for a started scheduler and well-formed `push_time`, the
auto-send decision is true iff `now` lies within the inclusive ±30 s
window around today's `push_time` instant, at least 60 s have elapsed
since the scheduler started, and it is not the case that
`last_push_date` is today while `last_push_time` equals the configured
`push_time` (so a `push_time` change re-arms the gate, and outside the
window — before or after — the decision is false). -/
theorem C8_auto_send_decision (lastPushDate lastPushTime pushTimeStr todayStr : String)
    (todayMid pushSec now startTime : Int) :
    should_send_auto_notification lastPushDate lastPushTime pushTimeStr todayStr
        todayMid pushSec now startTime = true ↔
      (¬(lastPushDate = todayStr ∧ lastPushTime = pushTimeStr) ∧
       60 ≤ now - startTime ∧
       todayMid + pushSec - 30 ≤ now ∧ now ≤ todayMid + pushSec + 30) := by
  unfold should_send_auto_notification
  split_ifs with h1 h2 <;>
    simp only [Bool.and_eq_true, beq_iff_eq, decide_eq_true_eq, not_and, not_le, not_lt] at * <;>
    constructor <;> intro hc <;> first | (exfalso; omega) | omega | simp_all

/-- C9: the claim fails on the code.  The success branch of the
scheduler loop passes the keyword `last_push_time` to
`update_notification_settings`, whose parameter list does not contain
it, so Python raises `TypeError` at argument binding, the loop's
blanket `except` swallows it, and the stored
`last_push_date`/`last_push_time` pair is never rewritten — even when
`send_daily_report` succeeds.  (The failed-push half of the claim does
hold: nothing is stored then either.)  Concretely, a tick with
notifications enabled, a webhook configured, the gate open at 08:00:00
and a successful send still leaves the stored pair `("", "")`. -/
theorem C9_update_call_typeerror :
    kwargsBind UPDATE_NOTIFICATION_SETTINGS_PARAMS SCHEDULER_UPDATE_CALL_KWARGS = false ∧
    (∀ (enabled : Bool) (webhookUrl : String)
       (lastPushDate lastPushTime pushTimeStr todayStr : String)
       (todayMid pushSec now startTime : Int) (sendSuccess : Bool),
      run_scheduler_tick enabled webhookUrl lastPushDate lastPushTime pushTimeStr todayStr
          todayMid pushSec now startTime sendSuccess = (lastPushDate, lastPushTime)) ∧
    run_scheduler_tick true "https://example" "" "" "08:00" "2024-06-01"
        0 28800 28800 0 true = ("", "") ∧
    should_send_auto_notification "" "" "08:00" "2024-06-01" 0 28800 28800 0 = true := by
  refine ⟨rfl, ?_, rfl, rfl⟩
  intro enabled webhookUrl lastPushDate lastPushTime pushTimeStr todayStr
    todayMid pushSec now startTime sendSuccess
  unfold run_scheduler_tick
  split_ifs with h1 h2 h3 h4
  · exact absurd h4 (by simp [kwargsBind, UPDATE_NOTIFICATION_SETTINGS_PARAMS,
      SCHEDULER_UPDATE_CALL_KWARGS])
  all_goals rfl
